import Mathlib

/-!
Verification development for the survey application (streamlit_app.py).

Shallow embedding of the persistence and generation layers of the
application: secret resolution with environment fallback, one-shot backend
selection (remote Supabase client vs local SQLite), the SQLite adapter,
the normalization of heterogeneous remote-client responses, the row built
at submission time, and the hardened image-generation client.

Machine conventions: Python optional values are `Option`, Python raising
is `Except`, Python truthiness is made explicit per type.
-/

/-- Python truthiness of an optional string value (`None` or `str`):
`None` and the empty string are falsy. -/
def truthyStr : Option String → Bool
  | none => false
  | some s => !(s == "")

/- ====================  Config resolver (_safe_secret)  ==================== -/

/-- The behaviour of the structured secret source `st.secrets`: the lookup
can raise `FileNotFoundError` when `.streamlit/secrets.toml` is missing,
can raise some other exception (e.g. a TOML parse error), or can answer
lookups from a table. -/
inductive SecretsSource where
  | fileNotFound
  | raisesOther (e : String)
  | table (f : String → Option String)

/-- `env_var = env_var or key`: Python `or` falls back to `key` when the
supplied name is `None` or the empty string. -/
def effectiveEnvVar (envVar : Option String) (key : String) : String :=
  match envVar with
  | none => key
  | some s => if s == "" then key else s

/-- `_safe_secret(key, env_var)`: consult `st.secrets.get(key)` inside a
`try` that catches only `FileNotFoundError`; a non-`None` secret value is
returned directly, otherwise fall through to `os.environ.get(env_var)`. -/
def safe_secret (secrets : SecretsSource) (env : String → Option String)
    (key : String) (envVar : Option String) : Except String (Option String) :=
  let ev := effectiveEnvVar envVar key
  match secrets with
  | .fileNotFound => .ok (env ev)
  | .raisesOther e => .error e
  | .table f =>
    match f key with
    | some v => .ok (some v)
    | none => .ok (env ev)

/- ====================  Backend selection  ==================== -/

/-- `_get_supabase_client()`: a client is constructed only when both
`SUPABASE_URL` and `SUPABASE_KEY` are truthy; a failing import of the
`supabase` dependency or a failing `create_client` call each yield `None`
(with a UI warning, not modelled). The client object itself is opaque. -/
def get_supabase_client (url key : Option String)
    (importOk createOk : Bool) : Option Unit :=
  if truthyStr url && truthyStr key then
    if importOk then
      if createOk then some () else none
    else none
  else none

/-- The module-level backend state: `SUPABASE = _get_supabase_client()` and
`SQLITE = _get_sqlite_conn() if SUPABASE is None else None`. -/
structure AppInit where
  supabase : Option Unit
  sqliteConn : Option Unit
deriving DecidableEq

/-- Module initialization: select the backend exactly once. -/
def initBackends (url key : Option String) (importOk createOk : Bool) : AppInit :=
  let sb := get_supabase_client url key importOk createOk
  { supabase := sb, sqliteConn := if sb.isSome then none else some () }

/- ====================  Rows and the fetch projection  ==================== -/

/-- One row of the `responses` table / one insert payload (the `row` dict). -/
structure Row where
  id : String
  created_at : String
  alter_group : String
  geschlecht : String
  bildung : String
  richtung : String
  einkommen : Option String
  prompt : String
  image_b64 : String
  gefallen : Int
  ueberzeugung : Int
  kommentar : String
  extras_json : String
deriving DecidableEq

/-- The nine-field projection selected by `db_fetch_recent` on both
backends: `id, created_at, alter_group, geschlecht, bildung, richtung,
einkommen, gefallen, ueberzeugung`. -/
structure ProjRow where
  id : String
  created_at : String
  alter_group : String
  geschlecht : String
  bildung : String
  richtung : String
  einkommen : Option String
  gefallen : Int
  ueberzeugung : Int
deriving DecidableEq

/-- Apply the fetch projection to a stored row (drops `prompt`,
`image_b64`, `kommentar` and `extras_json`). -/
def projRow (r : Row) : ProjRow :=
  { id := r.id, created_at := r.created_at, alter_group := r.alter_group
    geschlecht := r.geschlecht, bildung := r.bildung, richtung := r.richtung
    einkommen := r.einkommen, gefallen := r.gefallen, ueberzeugung := r.ueberzeugung }

/-- `ORDER BY created_at DESC`: `a` may come before `b` when `a`'s
timestamp is at least `b`'s (SQLite compares TEXT bytewise, which on the
stored ISO-8601 strings agrees with the codepoint order used here). -/
def byCreatedAtDesc (a b : ProjRow) : Prop := b.created_at ≤ a.created_at

instance : DecidableRel byCreatedAtDesc :=
  fun a b => inferInstanceAs (Decidable (b.created_at ≤ a.created_at))

instance : IsTotal ProjRow byCreatedAtDesc :=
  ⟨fun a b => le_total b.created_at a.created_at⟩

instance : IsTrans ProjRow byCreatedAtDesc :=
  ⟨fun _ _ _ h1 h2 => le_trans h2 h1⟩

/- ====================  SQLite adapter  ==================== -/

/-- The SQLite branch of `db_insert_response`: a single INSERT inside
`with SQLITE:`, whose context manager commits on success and rolls back on
failure, surfacing the exception. In this embedding the database is the
list of committed rows in insertion order; the failure mode expressible in
the schema is a PRIMARY KEY violation on `id`, in which case the state is
returned unchanged (rollback) together with the surfaced error. -/
def sqlite_insert (db : List Row) (row : Row) : Except String Unit × List Row :=
  if db.any (fun r => r.id == row.id) then
    (.error "UNIQUE constraint failed: responses.id", db)
  else
    (.ok (), db ++ [row])

/-- The SQLite branch of `db_fetch_recent`: `SELECT <nine fields> FROM
responses ORDER BY created_at DESC LIMIT n`, returned as dicts. -/
def sqlite_fetch (db : List Row) (n : Nat) : List ProjRow :=
  (((db.map projRow).insertionSort byCreatedAtDesc).take n)

/- ====================  Remote response normalization  ==================== -/

/-- A Python value appearing in the error/status channels of a remote
response: `None`, a string, or an integer. -/
inductive PyVal where
  | pynone
  | pystr (s : String)
  | pyint (n : Int)
deriving DecidableEq

/-- Python truthiness of such a value. -/
def PyVal.truthy : PyVal → Bool
  | .pynone => false
  | .pystr s => !(s == "")
  | .pyint n => !(n == 0)

/-- Python `a or b`. -/
def pyOr (a b : PyVal) : PyVal := if a.truthy then a else b

/-- `str()` of the value as interpolated by an f-string. -/
def PyVal.fmt : PyVal → String
  | .pynone => "None"
  | .pystr s => s
  | .pyint n => toString n

/-- The outcome of `getattr(res, name, default)` on a response object:
the attribute is absent (the default is returned), reading it raises
(a property that throws), or it yields a value. -/
inductive Attr where
  | absent
  | raises
  | val (v : PyVal)
deriving DecidableEq

/-- A possibly-`None` data payload. -/
inductive PyOpt (δ : Type) where
  | pynone
  | val (d : δ)
deriving DecidableEq

/-- The `data` attribute of a response: absent, raising, or a payload. -/
inductive AttrD (δ : Type) where
  | absent
  | raises
  | val (d : PyOpt δ)
deriving DecidableEq

/-- A remote-client response as observed by the adapter code: it may be a
mapping (`isDict`), and it exposes the `error`, `status_code`, `status`
and `data` channels, each of which can be absent or raise when read. `δ`
is the type of the `data` payload (a diagnostic blob for inserts, a list
of projected rows for fetches). -/
structure RemoteResp (δ : Type) where
  isDict : Bool
  errorAttr : Attr
  dictError : PyVal
  dictMessage : PyVal
  statusCodeAttr : Attr
  statusAttr : Attr
  dataAttr : AttrD δ
  dictData : PyOpt δ
deriving DecidableEq

/-- The error channel: `err = getattr(res, "error", None)` with raises
caught to `None`; then, only when that yielded `None` and the response is
a mapping, `err = res.get("error") or res.get("message")`. -/
def readErr {δ : Type} (r : RemoteResp δ) : PyVal :=
  let e := match r.errorAttr with
    | .raises => PyVal.pynone
    | .absent => PyVal.pynone
    | .val v => v
  match e with
  | .pynone => if r.isDict then pyOr r.dictError r.dictMessage else .pynone
  | v => v

/-- The status channel: `getattr(res, "status_code", getattr(res,
"status", None))` inside a `try` — Python evaluates the inner `getattr`
first, so a raising `status` read nullifies the whole expression even
when `status_code` exists. -/
def readStatus {δ : Type} (r : RemoteResp δ) : PyVal :=
  match r.statusAttr with
  | .raises => .pynone
  | inner =>
    match r.statusCodeAttr with
    | .raises => .pynone
    | .val v => v
    | .absent =>
      match inner with
      | .val v => v
      | _ => .pynone

/-- `isinstance(status, int) and status >= 400`. -/
def statusFails {δ : Type} (r : RemoteResp δ) : Bool :=
  match readStatus r with
  | .pyint n => decide (400 ≤ n)
  | _ => false

/-- `if err or (isinstance(status, int) and status >= 400)`. -/
def errSignaled {δ : Type} (r : RemoteResp δ) : Bool :=
  (readErr r).truthy || statusFails r

/-- Python truthiness of a data payload. -/
class PyTruthy (δ : Type) where
  truthy : δ → Bool

instance : PyTruthy String := ⟨fun s => !(s == "")⟩

instance : PyTruthy (List ProjRow) := ⟨fun l => !l.isEmpty⟩

/-- Truthiness of a possibly-`None` payload. -/
def PyOpt.truthy {δ : Type} [PyTruthy δ] : PyOpt δ → Bool
  | .pynone => false
  | .val d => PyTruthy.truthy d

/-- Python `a or b` on possibly-`None` payloads. -/
def pyOrD {δ : Type} [PyTruthy δ] (a b : PyOpt δ) : PyOpt δ :=
  if a.truthy then a else b

/-- The insert path's debug-info read: `info = getattr(res, "data", None)
or (res.get("data") if isinstance(res, dict) else None)`, raising reads
caught to `None`. -/
def readInfo {δ : Type} [PyTruthy δ] (r : RemoteResp δ) : PyOpt δ :=
  match r.dataAttr with
  | .raises => .pynone
  | .absent => if r.isDict then r.dictData else .pynone
  | .val d => pyOrD d (if r.isDict then r.dictData else .pynone)

/-- The fetch path's data read: `data = getattr(res, "data", None)` with
raises caught; then `if data is None and isinstance(res, dict): data =
res.get("data")`. -/
def readFetchData (r : RemoteResp (List ProjRow)) : PyOpt (List ProjRow) :=
  let d : PyOpt (List ProjRow) :=
    match r.dataAttr with
    | .raises => .pynone
    | .absent => .pynone
    | .val d => d
  match d with
  | .pynone => if r.isDict then r.dictData else .pynone
  | v => v

/-- `return data or []`. -/
def fetchRows (r : RemoteResp (List ProjRow)) : List ProjRow :=
  match readFetchData r with
  | .pynone => []
  | .val rs => rs

/-- f-string rendering of the insert path's `info`. -/
def infoFmt : PyOpt String → String
  | .pynone => "None"
  | .val s => s

/-- The Supabase branch of `db_insert_response`: a raising `execute()` is
re-raised as "Supabase insert failed"; otherwise the tri-channel error
detection runs and on a detected failure the raised message interpolates
`err or status` and the collected `info`. -/
def supabase_insert (call : Except String (RemoteResp String)) :
    Except String Unit :=
  match call with
  | .error e => .error ("Supabase insert failed: " ++ e)
  | .ok res =>
    if errSignaled res then
      .error ("Supabase insert error: " ++ (pyOr (readErr res) (readStatus res)).fmt
        ++ " | " ++ infoFmt (readInfo res))
    else .ok ()

/-- The Supabase branch of `db_fetch_recent`: a raising `execute()` is
re-raised as "Supabase query failed"; a detected failure raises a message
interpolating only `err or status`; success returns `data or []`. -/
def supabase_fetch (call : Except String (RemoteResp (List ProjRow))) :
    Except String (List ProjRow) :=
  match call with
  | .error e => .error ("Supabase query failed: " ++ e)
  | .ok res =>
    if errSignaled res then
      .error ("Supabase query error: " ++ (pyOr (readErr res) (readStatus res)).fmt)
    else .ok (fetchRows res)

/- ====================  The facade  ==================== -/

/-- The records durably held by each backend. -/
structure Stores where
  remoteRows : List Row
  localRows : List Row
deriving DecidableEq

/-- `db_insert_response(row)`: routes on `SUPABASE is not None`. The
remote branch issues `SUPABASE.table("responses").insert(row).execute()`
(the call outcome is the `remoteCall` argument) and never touches the
local store; the effect of a successful call on the remote table is
Modelled from the spec: the remote data service persists the submitted
record (the service itself is not part of this repository). The local
branch runs `sqlite_insert` and never touches the remote store. -/
def db_insert_response (supabase : Option Unit)
    (remoteCall : Except String (RemoteResp String))
    (st : Stores) (row : Row) : Except String Unit × Stores :=
  match supabase with
  | some _ =>
    match supabase_insert remoteCall with
    | .ok _ => (.ok (), { st with remoteRows := st.remoteRows ++ [row] })
    | .error e => (.error e, st)
  | none =>
    match sqlite_insert st.localRows row with
    | (r, db) => (r, { st with localRows := db })

/-- `db_fetch_recent(n)`: routes on `SUPABASE is not None`; the remote
branch is served entirely from the remote call's response, the local
branch from the SQLite store. -/
def db_fetch_recent (supabase : Option Unit)
    (remoteCall : Except String (RemoteResp (List ProjRow)))
    (st : Stores) (n : Nat) : Except String (List ProjRow) :=
  match supabase with
  | some _ => supabase_fetch remoteCall
  | none => .ok (sqlite_fetch st.localRows n)

/-- Modelled from the spec: the remote tabular-data service evaluating the
query built by `db_fetch_recent` — select the nine-field projection,
order by `created_at` descending, limit server-side to `n` (spec §4.3 and
§6; the service evaluating the query is not part of this repository). -/
def remoteQueryEval (table : List Row) (n : Nat) : List ProjRow :=
  (((table.map projRow).insertionSort byCreatedAtDesc).take n)

/- ====================  Generation client  ==================== -/

/-- A JSON value as produced by `resp.json()` (object keys are strings;
numbers restricted to integers, which is all the claims touch). -/
inductive JVal where
  | jnull
  | jbool (b : Bool)
  | jnum (n : Int)
  | jstr (s : String)
  | jarr (xs : List JVal)
  | jobj (kvs : List (String × JVal))

/-- Key lookup in a JSON object. -/
def jlookup (k : String) : List (String × JVal) → Option JVal
  | [] => none
  | (k', v) :: rest => if k' == k then some v else jlookup k rest

/-- `j["data"][0]["b64_json"]` with every failure mode (KeyError,
IndexError, TypeError) mapped to `none`, as the surrounding `try` turns
any exception into the shape-mismatch error. -/
def extract_b64 (j : JVal) : Option JVal :=
  match j with
  | .jobj kvs =>
    match jlookup "data" kvs with
    | some (.jarr (x :: _)) =>
      match x with
      | .jobj kvs2 => jlookup "b64_json" kvs2
      | _ => none
    | _ => none
  | _ => none

/-- One hop of the redirect history: `(r.status_code,
r.headers.get('location'))`. -/
structure HttpHop where
  status_code : Nat
  location : Option String
deriving DecidableEq

/-- The final prepared request, when reading `resp.request` succeeds. -/
structure PyRequest where
  method : String
  url : String
deriving DecidableEq

/-- The response produced by the single `requests.post` attempt.
`requestRead = none` models `resp.request.method` / `.url` raising;
`jsonBody` is the outcome of `resp.json()` (exception message on the
left). -/
structure HttpResponse where
  history : List HttpHop
  requestRead : Option PyRequest
  status_code : Nat
  reason : String
  text : String
  jsonBody : Except String JVal

/-- The distinct failure classes of `generate_image_b64`, each carrying
the data its RuntimeError message interpolates. -/
inductive GenErr where
  | config (msg : String)
  | redirect (finalMethod : String) (finalUrl : String)
      (hops : List (Nat × Option String)) (finalStatus : Nat) (bodyTrunc : String)
  | http (status : Nat) (reason : String) (body : Sum JVal String)
  | parse (excMsg : String) (bodyTrunc : String)
  | shape (parsed : JVal)

/-- Python `str.upper()` on the (ASCII) HTTP method string: per-character
uppercasing. -/
def strUpper (s : String) : String := String.mk (s.data.map Char.toUpper)

/-- Python slicing `s[:n]`: the first `n` characters. -/
def pyTruncate (s : String) (n : Nat) : String := String.mk (s.data.take n)

/-- `resp.raise_for_status()` raises exactly for 4xx and 5xx statuses. -/
def raiseForStatusFails (s : Nat) : Bool :=
  decide (400 ≤ s) && decide (s < 600)

/-- Steps (1)-(3) of the response handling: HTTP-status error (body =
parsed JSON, else raw text), then JSON parse error (with the body
truncated to 1000 characters), then shape extraction. -/
def http_phase (resp : HttpResponse) : Except GenErr JVal :=
  if raiseForStatusFails resp.status_code then
    .error (.http resp.status_code resp.reason
      (match resp.jsonBody with
       | .ok j => Sum.inl j
       | .error _ => Sum.inr resp.text))
  else
    match resp.jsonBody with
    | .error e => .error (.parse e (pyTruncate resp.text 1000))
    | .ok j =>
      match extract_b64 j with
      | some v => .ok v
      | none => .error (.shape j)

/-- `if resp.history and final_method and final_method.upper() != "POST"`:
`final_method` is `None` (falsy) when reading the request raised, and the
empty string is likewise falsy. -/
def redirectCheckFires (resp : HttpResponse) : Bool :=
  !resp.history.isEmpty &&
    (match resp.requestRead with
     | none => false
     | some req => !(req.method == "") && !(strUpper req.method == "POST"))

/-- `generate_image_b64(prompt, size)`: fail fast when the key is falsy
(before the network call — the response argument stands for the single
request attempt and is not consulted); then the redirect-integrity check;
then the staged response handling of `http_phase`. -/
def generate_image_b64 (apiKey : Option String) (resp : HttpResponse) :
    Except GenErr JVal :=
  if !truthyStr apiKey then
    .error (.config "OPENAI_API_KEY fehlt in st.secrets.")
  else if redirectCheckFires resp then
    .error (.redirect
      (match resp.requestRead with | some req => req.method | none => "")
      (match resp.requestRead with | some req => req.url | none => "")
      (resp.history.map fun h => (h.status_code, h.location))
      resp.status_code (pyTruncate resp.text 1000))
  else http_phase resp

/- ====================  Submission row  ==================== -/

/-- The profile answers collected in step 1 of the wizard. -/
structure Answers where
  alter_group : String
  geschlecht : String
  bildung : String
  einkommen : String
  richtung : String
deriving DecidableEq

/-- The `row` dict built when the feedback form is submitted: `richtung`
is the constant string "neutral" regardless of the collected answer, and
`kommentar` is stripped of surrounding whitespace. -/
def build_row (ans : Answers) (newId createdAt promptText imageB64 : String)
    (gefallen ueberzeugung : Int) (kommentar : String) (extrasJson : String) : Row :=
  { id := newId
    created_at := createdAt
    alter_group := ans.alter_group
    geschlecht := ans.geschlecht
    bildung := ans.bildung
    richtung := "neutral"
    einkommen := some ans.einkommen
    prompt := promptText
    image_b64 := imageB64
    gefallen := gefallen
    ueberzeugung := ueberzeugung
    kommentar := kommentar.trim
    extras_json := extrasJson }

/- ====================  Concrete fixtures  ==================== -/

/-- A concrete stored row. -/
def sampleRow : Row :=
  { id := "a1", created_at := "2026-01-01T10:00:00", alter_group := "25-34"
    geschlecht := "Frau", bildung := "Uni/ETH", richtung := "neutral"
    einkommen := some "20'000-80'000 CHF", prompt := "p", image_b64 := "img"
    gefallen := 5, ueberzeugung := 4, kommentar := "ok", extras_json := "{}" }

/-- A second stored row with a strictly later timestamp. -/
def sampleRow2 : Row :=
  { id := "b2", created_at := "2026-01-02T09:30:00", alter_group := "35-44"
    geschlecht := "Mann", bildung := "Lehre", richtung := "neutral"
    einkommen := some "0-20'000 CHF", prompt := "q", image_b64 := "img2"
    gefallen := 2, ueberzeugung := 6, kommentar := "", extras_json := "{}" }

/-- A concrete set of profile answers. -/
def sampleAns : Answers :=
  { alter_group := "45-54", geschlecht := "Divers", bildung := "HF/FH"
    einkommen := "150'000+ CHF", richtung := "Mitte-Rechts" }

/-- A projected row with a recognizable id, used as a remote data payload. -/
def sampleProj : ProjRow :=
  { id := "ROW-ID-77", created_at := "2026-02-03T01:02:03", alter_group := "18-24"
    geschlecht := "Frau", bildung := "Sek II", richtung := "neutral"
    einkommen := none, gefallen := 7, ueberzeugung := 1 }

/-- A remote fetch response whose error attribute signals failure while a
data payload is present. -/
def respFetchErr : RemoteResp (List ProjRow) :=
  { isDict := false, errorAttr := .val (.pystr "boom"), dictError := .pynone
    dictMessage := .pynone, statusCodeAttr := .absent, statusAttr := .absent
    dataAttr := .val (.val [sampleProj]), dictData := .pynone }

/-- A remote insert response with an error and a diagnostic data blob. -/
def respInsErr : RemoteResp String :=
  { isDict := false, errorAttr := .val (.pystr "duplicate key"), dictError := .pynone
    dictMessage := .pynone, statusCodeAttr := .val (.pyint 409), statusAttr := .absent
    dataAttr := .val (.val "details-blob"), dictData := .pynone }

/-- A redirected response whose final request was downgraded to GET. -/
def respRedirected : HttpResponse :=
  { history := [{ status_code := 302, location := some "http://api.example/v1" }]
    requestRead := some { method := "GET", url := "http://api.example/v1" }
    status_code := 405, reason := "Method Not Allowed", text := "nope"
    jsonBody := .error "Expecting value" }

/-- A redirected response on which reading `resp.request` raises. -/
def respNoRequest : HttpResponse :=
  { history := [{ status_code := 301, location := some "https://x" }]
    requestRead := none
    status_code := 200, reason := "OK", text := "body"
    jsonBody := .ok (.jobj [("data", .jarr [.jobj [("b64_json", .jstr "AAA")]])]) }

/-- A non-2xx (304) response that `raise_for_status` does not raise on,
carrying a well-shaped JSON body. -/
def resp304 : HttpResponse :=
  { history := []
    requestRead := some { method := "POST", url := "https://api.openai.com/v1/images/generations" }
    status_code := 304, reason := "Not Modified", text := "cached"
    jsonBody := .ok (.jobj [("data", .jarr [.jobj [("b64_json", .jstr "IMG")]])]) }

/-- A plain 500 error response whose body is not JSON. -/
def resp500 : HttpResponse :=
  { history := [], requestRead := some { method := "POST", url := "u" }
    status_code := 500, reason := "Internal Server Error", text := "oops"
    jsonBody := .error "Expecting value" }

/-- A 200 response whose JSON body lacks the expected nested array. -/
def respBadShape : HttpResponse :=
  { history := [], requestRead := some { method := "POST", url := "u" }
    status_code := 200, reason := "OK", text := "{}"
    jsonBody := .ok (.jobj [("error", .jstr "none")]) }

/- ====================  Claim theorems  ==================== -/

/-- C7 (amended): `_safe_secret` consults the structured secret source
first; a file-not-found failure there is swallowed and resolution falls
through to the environment variable of the same (or explicitly supplied)
name; in those modes the function does not raise, and an absent result is
a valid outcome when neither source has the value. (A structured-source
failure other than file-not-found is not caught and propagates.) -/
theorem c7_safe_secret_fallback (env : String → Option String)
    (f : String → Option String) (key : String) (envVar : Option String) :
    safe_secret .fileNotFound env key envVar = .ok (env (effectiveEnvVar envVar key))
    ∧ (∀ v, f key = some v → safe_secret (.table f) env key envVar = .ok (some v))
    ∧ (f key = none →
        safe_secret (.table f) env key envVar = .ok (env (effectiveEnvVar envVar key)))
    ∧ (env (effectiveEnvVar envVar key) = none →
        safe_secret .fileNotFound env key envVar = .ok none)
    ∧ (∀ s, safe_secret .fileNotFound env key envVar ≠ .error s)
    ∧ (∀ s, safe_secret (.table f) env key envVar ≠ .error s) := by
  refine ⟨rfl, ?_, ?_, ?_, ?_, ?_⟩
  · intro v hv
    simp [safe_secret, hv]
  · intro hv
    simp [safe_secret, hv]
  · intro h
    simp [safe_secret, h]
  · intro s h
    simp [safe_secret] at h
  · intro s h
    cases hf : f key <;> simp [safe_secret, hf] at h

/-- C7 witness: concrete resolution through the structured source. -/
theorem c7_witness :
    safe_secret (.table fun _ => some "sk-tbl") (fun _ => some "sk-env")
      "OPENAI_API_KEY" none = .ok (some "sk-tbl") :=
  (c7_safe_secret_fallback (fun _ => some "sk-env") (fun _ => some "sk-tbl")
    "OPENAI_API_KEY" none).2.1 "sk-tbl" rfl

/-- C7 counterexample: a structured-source failure that is not
file-not-found (e.g. a TOML parse error) propagates out of `_safe_secret`
even though the environment variable is set, so "never raises" fails as
stated. -/
theorem c7_counterexample :
    safe_secret (.raisesOther "TomlDecodeError") (fun _ => some "sk-env")
      "OPENAI_API_KEY" none = .error "TomlDecodeError" := rfl

/-- C8: at write time the stored `richtung` field is the constant string
"neutral" regardless of the collected answer, while the other profile
fields are stored as collected. -/
theorem c8_richtung_normalized (ans : Answers)
    (newId createdAt promptText imageB64 : String) (g u : Int)
    (kommentar extrasJson : String) :
    (build_row ans newId createdAt promptText imageB64 g u kommentar extrasJson).richtung
        = "neutral"
    ∧ (build_row ans newId createdAt promptText imageB64 g u kommentar extrasJson).alter_group
        = ans.alter_group
    ∧ (build_row ans newId createdAt promptText imageB64 g u kommentar extrasJson).geschlecht
        = ans.geschlecht
    ∧ (build_row ans newId createdAt promptText imageB64 g u kommentar extrasJson).bildung
        = ans.bildung
    ∧ (build_row ans newId createdAt promptText imageB64 g u kommentar extrasJson).einkommen
        = some ans.einkommen
    ∧ (build_row ans newId createdAt promptText imageB64 g u kommentar extrasJson).id = newId
    ∧ (build_row ans newId createdAt promptText imageB64 g u kommentar extrasJson).created_at
        = createdAt
    ∧ (build_row ans newId createdAt promptText imageB64 g u kommentar extrasJson).gefallen = g
    ∧ (build_row ans newId createdAt promptText imageB64 g u kommentar extrasJson).ueberzeugung
        = u :=
  ⟨rfl, rfl, rfl, rfl, rfl, rfl, rfl, rfl, rfl⟩

/-- C8 witness: the coercion on a concrete submission whose collected
answer was "Mitte-Rechts". -/
theorem c8_witness :
    (build_row sampleAns "id9" "2026-03-01T00:00:00" "pr" "im" 3 2 " hi " "{}").richtung
      = "neutral" :=
  (c8_richtung_normalized sampleAns "id9" "2026-03-01T00:00:00" "pr" "im" 3 2 " hi " "{}").1

/-- C9: the local insert is a single statement inside a transaction: on
success the record is committed (appended); on failure (PRIMARY KEY
violation on `id`) the database state is unchanged and the underlying
error is surfaced to the caller. -/
theorem c9_sqlite_insert_transactional (db : List Row) (row : Row) :
    ((db.any fun r => r.id == row.id) = false →
      sqlite_insert db row = (.ok (), db ++ [row]))
    ∧ ((db.any fun r => r.id == row.id) = true →
      (sqlite_insert db row).2 = db
        ∧ (sqlite_insert db row).1 = .error "UNIQUE constraint failed: responses.id") := by
  constructor
  · intro h
    simp [sqlite_insert, h]
  · intro h
    refine ⟨?_, ?_⟩ <;> simp [sqlite_insert, h]

/-- C9 witness: committing into an empty store. -/
theorem c9_witness : sqlite_insert [] sampleRow = (.ok (), [sampleRow]) :=
  (c9_sqlite_insert_transactional [] sampleRow).1 rfl

/-- C2: when the key is present, the redirect history is non-empty, the
final request is readable and its (canonical, nonempty) method differs
from POST, `generate_image_b64` fails with the dedicated redirect error
carrying each hop's status code and Location target together with the
final status and (truncated) body — not with a generic HTTP error. -/
theorem c2_redirect_integrity (key : String) (resp : HttpResponse) (req : PyRequest)
    (hk : key ≠ "") (hreq : resp.requestRead = some req)
    (hh : resp.history ≠ [])
    (hcanon : strUpper req.method = req.method)
    (hne : req.method ≠ "POST") (hnz : req.method ≠ "") :
    generate_image_b64 (some key) resp =
      .error (.redirect req.method req.url
        (resp.history.map fun h => (h.status_code, h.location))
        resp.status_code (pyTruncate resp.text 1000)) := by
  have h1 : resp.history.isEmpty = false := List.isEmpty_eq_false.mpr hh
  have h2 : (req.method == "") = false := beq_eq_false_iff_ne.mpr hnz
  have h3 : (strUpper req.method == "POST") = false := by
    rw [hcanon]
    exact beq_eq_false_iff_ne.mpr hne
  have hkey : (key == "") = false := beq_eq_false_iff_ne.mpr hk
  have hfire : redirectCheckFires resp = true := by
    simp [redirectCheckFires, hreq, h1, h2, h3]
  simp [generate_image_b64, truthyStr, hkey, hfire, hreq]

/-- C2 witness: one 302 hop whose final request was downgraded to GET. -/
theorem c2_witness :
    generate_image_b64 (some "k") respRedirected =
      .error (.redirect "GET" "http://api.example/v1"
        [(302, some "http://api.example/v1")] 405 "nope") :=
  c2_redirect_integrity "k" respRedirected
    { method := "GET", url := "http://api.example/v1" }
    (by decide) rfl (by decide) rfl (by decide) (by decide)

/-- Helper: the staged response handling never produces the redirect
error class. -/
theorem http_phase_ne_redirect (resp : HttpResponse)
    (m u : String) (hs : List (Nat × Option String)) (fs : Nat) (b : String) :
    http_phase resp ≠ .error (.redirect m u hs fs b) := by
  unfold http_phase
  split
  · simp
  · split
    · simp
    · split <;> simp

/-- C10 (implicit): when reading `resp.request` raises, the guard sets
`final_method` to `None`, the redirect check is silently skipped — even
with a non-empty redirect history — and processing continues with the
ordinary HTTP status handling; in particular the redirect error class is
never produced and the attribute-access failure never propagates. -/
theorem c10_request_read_guard (key : String) (resp : HttpResponse)
    (hk : key ≠ "") (hr : resp.requestRead = none) :
    generate_image_b64 (some key) resp = http_phase resp
    ∧ ∀ m u hs fs b,
        generate_image_b64 (some key) resp ≠ .error (.redirect m u hs fs b) := by
  have hkey : (key == "") = false := beq_eq_false_iff_ne.mpr hk
  have hfire : redirectCheckFires resp = false := by
    simp [redirectCheckFires, hr]
  have h1 : generate_image_b64 (some key) resp = http_phase resp := by
    simp [generate_image_b64, truthyStr, hkey, hfire]
  exact ⟨h1, fun m u hs fs b => h1 ▸ http_phase_ne_redirect resp m u hs fs b⟩

/-- C10 witness: a redirected response whose request read raises is
processed by the ordinary staged handling and succeeds. -/
theorem c10_witness :
    generate_image_b64 (some "k") respNoRequest = .ok (.jstr "AAA") :=
  ((c10_request_read_guard "k" respNoRequest (by decide) rfl).1).trans rfl

/-- C4 counterexample: a non-2xx response (304) with empty redirect
history and a well-shaped JSON body is not rejected — `raise_for_status`
raises only for 4xx/5xx — so the call returns the base64 payload instead
of raising an HTTP error as the claim's step (1) demands. -/
theorem c4_counterexample :
    ¬ (200 ≤ resp304.status_code ∧ resp304.status_code < 300)
    ∧ generate_image_b64 (some "k") resp304 = .ok (.jstr "IMG") :=
  ⟨by decide, rfl⟩

/-- C4 (amended): with the generation key absent (or empty) the call
fails with the configuration error independently of any response; with a
key present and the redirect check not firing, the response is handled in
this fixed order — (1) a 4xx/5xx status raises an error attaching the
parsed JSON body, or the raw text when JSON parsing fails; (2) a body
that fails to parse as JSON raises a distinct parse-failure error with
the body truncated to 1000 characters; (3) a parsed body lacking the
nested data[0].b64_json field raises a distinct shape-mismatch error
carrying the full parsed body; otherwise the nested value is returned. -/
theorem c4_generate_image_staged (key : String) (resp : HttpResponse)
    (hk : key ≠ "") (hnr : redirectCheckFires resp = false) :
    (∀ r' : HttpResponse,
        generate_image_b64 none r' = .error (.config "OPENAI_API_KEY fehlt in st.secrets.")
        ∧ generate_image_b64 (some "") r'
            = .error (.config "OPENAI_API_KEY fehlt in st.secrets."))
    ∧ (raiseForStatusFails resp.status_code = true →
        generate_image_b64 (some key) resp = .error (.http resp.status_code resp.reason
          (match resp.jsonBody with
           | .ok j => Sum.inl j
           | .error _ => Sum.inr resp.text)))
    ∧ (raiseForStatusFails resp.status_code = false →
        (∀ e, resp.jsonBody = .error e →
          generate_image_b64 (some key) resp = .error (.parse e (pyTruncate resp.text 1000)))
        ∧ (∀ j, resp.jsonBody = .ok j →
            (extract_b64 j = none →
              generate_image_b64 (some key) resp = .error (.shape j))
            ∧ (∀ v, extract_b64 j = some v →
                generate_image_b64 (some key) resp = .ok v))) := by
  have hkey : (key == "") = false := beq_eq_false_iff_ne.mpr hk
  have hgen : generate_image_b64 (some key) resp = http_phase resp := by
    simp [generate_image_b64, truthyStr, hkey, hnr]
  refine ⟨fun r' => ⟨rfl, rfl⟩, ?_, ?_⟩
  · intro hs
    rw [hgen]
    simp [http_phase, hs]
  · intro hs
    refine ⟨?_, ?_⟩
    · intro e he
      rw [hgen]
      simp [http_phase, hs, he]
    · intro j hj
      refine ⟨?_, ?_⟩
      · intro hex
        rw [hgen]
        simp [http_phase, hs, hj, hex]
      · intro v hv
        rw [hgen]
        simp [http_phase, hs, hj, hv]

/-- C4 witness: a 500 response with a non-JSON body raises the HTTP error
carrying the raw text. -/
theorem c4_witness :
    generate_image_b64 (some "k") resp500 =
      .error (.http 500 "Internal Server Error" (Sum.inr "oops")) :=
  (c4_generate_image_staged "k" resp500 (by decide) rfl).2.1 rfl

/-- C1: backend selection happens once at module initialization and is
exclusive — the remote adapter is active iff the endpoint and credential
are both present (truthy) and both import and construction succeed, and
exactly one of the two connections exists; every insert and fetch call is
routed to the single active backend, so no record is ever written to both
stores. -/
theorem c1_backend_selection_exclusive (url key : Option String)
    (importOk createOk : Bool) :
    ((initBackends url key importOk createOk).supabase.isSome = true
      ↔ (truthyStr url = true ∧ truthyStr key = true
          ∧ importOk = true ∧ createOk = true))
    ∧ ((initBackends url key importOk createOk).supabase.isSome = true
      ↔ (initBackends url key importOk createOk).sqliteConn = none)
    ∧ (∀ call st row,
        (db_insert_response (some ()) call st row).2.localRows = st.localRows)
    ∧ (∀ call st row,
        (db_insert_response none call st row).2.remoteRows = st.remoteRows)
    ∧ (∀ (sb : Option Unit) call st row,
        (db_insert_response sb call st row).2.remoteRows = st.remoteRows
        ∨ (db_insert_response sb call st row).2.localRows = st.localRows)
    ∧ (∀ call st n, db_fetch_recent (some ()) call st n = supabase_fetch call)
    ∧ (∀ call st n, db_fetch_recent none call st n
        = .ok (sqlite_fetch st.localRows n)) := by
  refine ⟨?_, ?_, ?_, ?_, ?_, fun call st n => rfl, fun call st n => rfl⟩
  · cases hu : truthyStr url <;> cases hk' : truthyStr key <;>
      cases importOk <;> cases createOk <;>
        simp [initBackends, get_supabase_client, hu, hk']
  · cases hu : truthyStr url <;> cases hk' : truthyStr key <;>
      cases importOk <;> cases createOk <;>
        simp [initBackends, get_supabase_client, hu, hk']
  · intro call st row
    cases h : supabase_insert call <;> simp [db_insert_response, h]
  · intro call st row
    simp only [db_insert_response]
  · intro sb call st row
    cases sb with
    | none => left; simp only [db_insert_response]
    | some u =>
      right
      cases h : supabase_insert call <;> simp [db_insert_response, h]

/-- C1 witness: with both secrets present and import/construction
succeeding, the remote backend is selected. -/
theorem c1_witness :
    (initBackends (some "https://x.supabase.co") (some "svc-key") true true).supabase.isSome
      = true :=
  (c1_backend_selection_exclusive (some "https://x.supabase.co") (some "svc-key")
    true true).1.mpr (by decide)

/-- C3 counterexample: a fetch response signals an error while a data
payload is available, yet the error `db_fetch_recent` raises interpolates
only `err or status` — the message "Supabase query error: boom" does not
carry the available payload (the row id "ROW-ID-77" appears nowhere in
it), so the claim fails for `db_fetch_recent`. -/
theorem c3_counterexample :
    supabase_fetch (.ok respFetchErr) = .error "Supabase query error: boom"
    ∧ readFetchData respFetchErr = .val [sampleProj]
    ∧ sampleProj.id = "ROW-ID-77"
    ∧ ¬ ("ROW-ID-77".data <:+: "Supabase query error: boom".data) :=
  ⟨rfl, rfl, rfl, by decide⟩

/-- C3 (amended): both adapters check the three error channels in
priority order — the `.error` attribute first (its non-None value is used
regardless of the mapping's keys), then, only when that yields None and
the response is a mapping, the "error"/"message" keys, and the integer
status ≥ 400 only as a fallback when the error value is falsy; on a
detected failure `db_insert_response` raises a normalized error carrying
the available `data` payload, while `db_fetch_recent` raises a normalized
error carrying only the error value or status, without the payload. -/
theorem c3_tri_channel_detection (ri : RemoteResp String)
    (rf : RemoteResp (List ProjRow)) :
    (∀ v, ri.errorAttr = .val v → v ≠ .pynone → readErr ri = v)
    ∧ (ri.errorAttr = .absent → ri.isDict = true →
        readErr ri = pyOr ri.dictError ri.dictMessage)
    ∧ ((readErr ri).truthy = true → errSignaled ri = true)
    ∧ ((readErr ri).truthy = false → errSignaled ri = statusFails ri)
    ∧ (errSignaled ri = true →
        supabase_insert (.ok ri) = .error ("Supabase insert error: "
          ++ (pyOr (readErr ri) (readStatus ri)).fmt ++ " | " ++ infoFmt (readInfo ri)))
    ∧ (errSignaled ri = false → supabase_insert (.ok ri) = .ok ())
    ∧ (errSignaled rf = true →
        supabase_fetch (.ok rf) = .error ("Supabase query error: "
          ++ (pyOr (readErr rf) (readStatus rf)).fmt))
    ∧ (errSignaled rf = false → supabase_fetch (.ok rf) = .ok (fetchRows rf)) := by
  refine ⟨?_, ?_, ?_, ?_, ?_, ?_, ?_, ?_⟩
  · intro v hv hvn
    cases v with
    | pynone => exact absurd rfl hvn
    | pystr s => simp [readErr, hv]
    | pyint n => simp [readErr, hv]
  · intro h1 h2
    simp [readErr, h1, h2]
  · intro h
    simp [errSignaled, h]
  · intro h
    simp [errSignaled, h]
  · intro h
    simp [supabase_insert, h]
  · intro h
    simp [supabase_insert, h]
  · intro h
    simp [supabase_fetch, h]
  · intro h
    simp [supabase_fetch, h]

/-- C3 witness: a failing insert response whose raised error carries both
the error value and the diagnostic data blob. -/
theorem c3_witness :
    supabase_insert (.ok respInsErr)
      = .error "Supabase insert error: duplicate key | details-blob" :=
  (c3_tri_channel_detection respInsErr respFetchErr).2.2.2.2.1 rfl

/-- Helper: inserting a row whose timestamp is strictly below every
timestamp in the list appends it at the end. -/
theorem orderedInsert_of_forall_lt (x : ProjRow) :
    ∀ l : List ProjRow, (∀ y ∈ l, x.created_at < y.created_at) →
      l.orderedInsert byCreatedAtDesc x = l ++ [x]
  | [], _ => rfl
  | y :: ys, h => by
    have hy : x.created_at < y.created_at := h y (List.mem_cons_self y ys)
    have hr : ¬ byCreatedAtDesc x y := not_le.mpr hy
    simp only [List.orderedInsert, if_neg hr, List.cons_append]
    rw [orderedInsert_of_forall_lt x ys (fun z hz => h z (List.mem_cons_of_mem y hz))]

/-- Helper: sorting by descending timestamp a list whose timestamps
strictly increase yields its reverse. -/
theorem insertionSort_strict_incr :
    ∀ l : List ProjRow,
      (l.map (fun r => r.created_at)).Pairwise (fun a b => a < b) →
      l.insertionSort byCreatedAtDesc = l.reverse
  | [], _ => rfl
  | x :: xs, h => by
    obtain ⟨hx, hxs⟩ := List.pairwise_cons.mp (List.pairwise_map.mp h)
    simp only [List.insertionSort]
    rw [insertionSort_strict_incr xs (List.pairwise_map.mpr hxs)]
    rw [orderedInsert_of_forall_lt x xs.reverse
      (fun y hy => hx y (List.mem_reverse.mp hy))]
    simp [List.reverse_cons]

/-- C5: on both backends `db_fetch_recent(n)` succeeds with at most `n`
records projected to the fixed nine-field subset, sorted by `created_at`
descending (strictly increasing inserts come back reversed);
`fetchRecent(0)` is empty, a limit beyond the stored count returns every
stored record, and a rowless success yields an empty sequence rather than
an absent value. -/
theorem c5_fetch_recent_contract (db : List Row) (n : Nat) :
    (sqlite_fetch db n).length ≤ n
    ∧ sqlite_fetch db n = remoteQueryEval db n
    ∧ (sqlite_fetch db n).Pairwise byCreatedAtDesc
    ∧ sqlite_fetch db 0 = []
    ∧ (db.length ≤ n →
        (sqlite_fetch db n).length = db.length
        ∧ ∀ r ∈ db, projRow r ∈ sqlite_fetch db n)
    ∧ (db = [] → sqlite_fetch db n = [])
    ∧ ((db.map (fun r => r.created_at)).Pairwise (fun a b => a < b) →
        sqlite_fetch db db.length = (db.reverse).map projRow)
    ∧ (∀ rf : RemoteResp (List ProjRow), errSignaled rf = false →
        supabase_fetch (.ok rf) = .ok (fetchRows rf))
    ∧ (∀ rf : RemoteResp (List ProjRow),
        rf.dataAttr = .absent → rf.isDict = false → fetchRows rf = []) := by
  have hlen : ((db.map projRow).insertionSort byCreatedAtDesc).length = db.length := by
    rw [(List.perm_insertionSort byCreatedAtDesc (db.map projRow)).length_eq,
      List.length_map]
  refine ⟨?_, rfl, ?_, rfl, ?_, ?_, ?_, ?_, ?_⟩
  · simp only [sqlite_fetch, List.length_take]
    exact min_le_left n ((db.map projRow).insertionSort byCreatedAtDesc).length
  · exact List.Pairwise.sublist (List.take_sublist n _)
      (List.sorted_insertionSort byCreatedAtDesc (db.map projRow))
  · intro hn
    constructor
    · simp [sqlite_fetch, List.length_take, hlen, Nat.min_eq_right hn]
    · intro r hr
      have hmem : projRow r ∈ (db.map projRow).insertionSort byCreatedAtDesc :=
        (List.perm_insertionSort byCreatedAtDesc (db.map projRow)).mem_iff.mpr
          (List.mem_map_of_mem projRow hr)
      have hle : ((db.map projRow).insertionSort byCreatedAtDesc).length ≤ n := by
        rw [hlen]; exact hn
      unfold sqlite_fetch
      rw [List.take_of_length_le hle]
      exact hmem
  · intro h
    subst h
    simp [sqlite_fetch]
  · intro hp
    have hmap : (((db.map projRow)).map (fun r => r.created_at)).Pairwise
        (fun a b => a < b) := by
      rw [List.map_map]
      exact hp
    unfold sqlite_fetch
    rw [insertionSort_strict_incr (db.map projRow) hmap, ← List.map_reverse]
    have hrl : ((db.reverse).map projRow).length ≤ db.length := by
      simp
    rw [List.take_of_length_le hrl]
  · intro rf h
    simp [supabase_fetch, h]
  · intro rf h1 h2
    simp [fetchRows, readFetchData, h1, h2]

/-- C5 witness: two inserts with strictly increasing timestamps come back
in reverse insertion order. -/
theorem c5_witness :
    sqlite_fetch [sampleRow, sampleRow2] 2 = [projRow sampleRow2, projRow sampleRow] := by
  have hlt : sampleRow.created_at < sampleRow2.created_at := by
    rw [String.lt_iff_toList_lt]
    decide
  have hp : (List.map (fun r => r.created_at) [sampleRow, sampleRow2]).Pairwise
      (fun a b => a < b) := by
    refine List.Pairwise.cons (fun b hb => ?_)
      (List.Pairwise.cons (fun b hb => absurd hb (List.not_mem_nil b)) List.Pairwise.nil)
    have hb' : b = sampleRow2.created_at := by simpa using hb
    rw [hb']
    exact hlt
  exact ((c5_fetch_recent_contract [sampleRow, sampleRow2] 2).2.2.2.2.2.2.1 hp).trans rfl

/-- C6: a record inserted through the local adapter is returned by a
subsequent fetch, with every projected field equal to the inserted value;
the only loss is the fixed projection dropping `prompt`, `image_b64`,
`kommentar` and `extras_json` (the remote query evaluation projects the
same record identically). -/
theorem c6_roundtrip (db : List Row) (row : Row)
    (h : (db.any fun r => r.id == row.id) = false) :
    sqlite_insert db row = (.ok (), db ++ [row])
    ∧ projRow row ∈ sqlite_fetch (db ++ [row]) (db.length + 1)
    ∧ projRow row ∈ remoteQueryEval (db ++ [row]) (db.length + 1)
    ∧ (projRow row).id = row.id
    ∧ (projRow row).created_at = row.created_at
    ∧ (projRow row).alter_group = row.alter_group
    ∧ (projRow row).geschlecht = row.geschlecht
    ∧ (projRow row).bildung = row.bildung
    ∧ (projRow row).richtung = row.richtung
    ∧ (projRow row).einkommen = row.einkommen
    ∧ (projRow row).gefallen = row.gefallen
    ∧ (projRow row).ueberzeugung = row.ueberzeugung := by
  have hlen : (((db ++ [row]).map projRow).insertionSort byCreatedAtDesc).length
      = db.length + 1 := by
    rw [(List.perm_insertionSort byCreatedAtDesc ((db ++ [row]).map projRow)).length_eq,
      List.length_map, List.length_append, List.length_singleton]
  have hmem : projRow row ∈ ((db ++ [row]).map projRow).insertionSort byCreatedAtDesc :=
    (List.perm_insertionSort byCreatedAtDesc ((db ++ [row]).map projRow)).mem_iff.mpr
      (List.mem_map_of_mem projRow (by simp))
  have hfetch : projRow row ∈ sqlite_fetch (db ++ [row]) (db.length + 1) := by
    unfold sqlite_fetch
    rw [List.take_of_length_le (le_of_eq hlen)]
    exact hmem
  have hremote : projRow row ∈ remoteQueryEval (db ++ [row]) (db.length + 1) := by
    unfold remoteQueryEval
    rw [List.take_of_length_le (le_of_eq hlen)]
    exact hmem
  exact ⟨by simp [sqlite_insert, h], hfetch, hremote,
    rfl, rfl, rfl, rfl, rfl, rfl, rfl, rfl, rfl⟩

/-- C6 witness: insert into an empty local store, then fetch it back. -/
theorem c6_witness : projRow sampleRow ∈ sqlite_fetch [sampleRow] 1 :=
  (c6_roundtrip [] sampleRow rfl).2.1
